import Mathlib

/-!
Verification of the funda_scraper pipeline (`src/main.py`).

Shallow embedding of the SQLite-backed staging/merge/notify pipeline.

Modelling conventions:

* A row of the `LISTINGS` table (`URL TEXT PRIMARY KEY, FLAG BOOLEAN,
  INSERT_TIMESTAMP TEXT, UPDATE_TIMESTAMP TEXT`) is a `Row`; the value of
  `DATETIME()` at the moment a statement runs is passed in as a `now : Nat`
  parameter.
* The database is the pair of the `LISTINGS` table (a list of rows, in rowid
  order) and the `LISTINGS_STAGING` table (a list of URL strings, in rowid
  order, no uniqueness constraint).
* Every Python function wraps its body in `try/except` and calls `exit()` on
  any exception, so a fallible operation returns a `RunResult DB`:
  `.ok db` for normal completion and `.aborted db` for a process exit, where
  `db` is the persisted (committed) state at that point.  SQLite's default
  `ON CONFLICT ABORT` rolls the failing statement back, and the uncommitted
  transaction is lost when the process exits, so on abort the persisted state
  is the state before the failing statement.
* The `INSERT INTO LISTINGS ... SELECT ... FROM LISTINGS_STAGING WHERE URL
  NOT IN (SELECT URL FROM LISTINGS)` of `insert_records_target` reads the
  insert target inside the `SELECT`, so SQLite materialises the `SELECT`
  first; the statement then inserts every materialised row, and a duplicate
  URL among those rows violates the primary key and aborts the statement.
  This is modelled by the `Nodup` test on the materialised list of new URLs.
-/

namespace FundaScraper

/-- One row of the `LISTINGS` table: `URL` (primary key), `FLAG`
(the notified flag), `INSERT_TIMESTAMP` and `UPDATE_TIMESTAMP`. -/
structure Row where
  url : String
  flag : Bool
  insert_timestamp : Nat
  update_timestamp : Nat
deriving DecidableEq, Repr

/-- The persisted database: the `LISTINGS` table and the
`LISTINGS_STAGING` table. -/
structure DB where
  listings : List Row
  listings_staging : List String
deriving DecidableEq, Repr

/-- Outcome of an operation of the process: `.ok` for normal completion,
`.aborted` for the `except`-branch `exit()`.  Both carry the persisted
database state at that point. -/
inductive RunResult (α : Type) where
  | ok : α → RunResult α
  | aborted : α → RunResult α
deriving DecidableEq, Repr

/-- The persisted state left behind by an operation, whether it completed
or aborted the process. -/
def RunResult.state : RunResult α → α
  | .ok a => a
  | .aborted a => a

/-- `connect_to_sql` (`main.py` lines 53-92): opens the database file,
creating it (and both tables) when absent.  `CREATE TABLE IF NOT EXISTS`
changes nothing on an existing database, so connecting to an existing
state returns it untouched; connecting with no database file yields empty
tables. -/
def connect_to_sql : Option DB → DB
  | none => { listings := [], listings_staging := [] }
  | some db => db

/-- `insert_records_staging` (`main.py` lines 94-112): inserts every link,
in order, into `LISTINGS_STAGING` (plain `INSERT`, no constraint, no
dedup), then commits. -/
def insert_records_staging (db : DB) (links : List String) : DB :=
  { db with listings_staging := db.listings_staging ++ links }

/-- `URL IN (SELECT URL FROM LISTINGS)`: whether some row of the table has
the given URL. -/
def hasURL (rows : List Row) (u : String) : Bool :=
  rows.any (fun r => r.url == u)

/-- The rows the merge's `SELECT` materialises: staged URLs not already
present in `LISTINGS`, in staging order. -/
def newUrls (db : DB) : List String :=
  db.listings_staging.filter (fun u => ! hasURL db.listings u)

/-- The row the merge inserts for a new URL: `FALSE AS FLAG`,
`DATETIME()` for both timestamps. -/
def mkRow (now : Nat) (u : String) : Row :=
  { url := u, flag := false, insert_timestamp := now, update_timestamp := now }

/-- `insert_records_target` (`main.py` lines 114-160): one
`INSERT INTO LISTINGS ... SELECT ... FROM LISTINGS_STAGING WHERE URL NOT IN
(SELECT URL FROM LISTINGS)` followed by a commit, then
`DELETE FROM LISTINGS_STAGING` and another commit.  A duplicate URL among
the materialised new rows violates the `URL` primary key, the statement
aborts, the exception handler calls `exit()`, and the persisted state is
the pre-merge state (the staging insert was already committed). -/
def insert_records_target (now : Nat) (db : DB) : RunResult DB :=
  if (newUrls db).Nodup then
    .ok { listings := db.listings ++ (newUrls db).map (mkRow now),
          listings_staging := [] }
  else
    .aborted db

/-- `get_new_listings` (`main.py` lines 162-197):
`SELECT URL FROM LISTINGS WHERE FLAG = FALSE`, returning the URLs in rowid
order. -/
def get_new_listings (db : DB) : List String :=
  (db.listings.filter (fun r => r.flag == false)).map (fun r => r.url)

/-- `mail_new_listings` (`main.py` lines 199-250): builds and sends the
email; only after `sendmail`/`quit` return does it run
`UPDATE LISTINGS SET FLAG = TRUE, UPDATE_TIMESTAMP = DATETIME() WHERE FLAG
= FALSE` and commit.  `sendOk` models whether the SMTP interaction (an
external effect) succeeds; on failure the exception handler exits before
the `UPDATE`, leaving the database exactly as it was. -/
def mail_new_listings (sendOk : Bool) (now : Nat) (db : DB) : RunResult DB :=
  if sendOk then
    .ok { db with
          listings := db.listings.map (fun r =>
            if r.flag == false then
              { r with flag := true, update_timestamp := now }
            else r) }
  else
    .aborted db

/-- The tail of `main` (`main.py` lines 259-265): after the merge,
`get_new_listings` runs and `mail_new_listings` is invoked only when it
returned a non-empty list; otherwise nothing further touches the
database. -/
def main_notify_step (sendOk : Bool) (now : Nat) (db : DB) : RunResult DB :=
  if (get_new_listings db).length > 0 then
    mail_new_listings sendOk now db
  else
    .ok db

/-- The query-parameter dictionary `get_listings` builds
(`main.py` lines 18-30): note that on line 29 the *variable*
`device_type` (holding `'desktop'`) is used as the dictionary key, not the
string literal `'device_type'`. -/
def get_listings_payload (api_key url : String) : List (String × String) :=
  let country_code := "eu"
  let device_type := "desktop"
  [("api_key", api_key), ("url", url), ("country_code", country_code),
   (device_type, device_type)]

/-- The names of the query parameters the single GET of `get_listings`
carries. -/
def payload_keys (api_key url : String) : List String :=
  (get_listings_payload api_key url).map Prod.fst

end FundaScraper

namespace FundaScraper

/-- Membership reading of the `URL IN (SELECT URL FROM LISTINGS)` test. -/
lemma hasURL_eq_true_iff (rows : List Row) (u : String) :
    hasURL rows u = true ↔ ∃ r ∈ rows, r.url = u := by
  simp [hasURL, List.any_eq_true]

/-- Inversion: a merge that completed had duplicate-free new URLs and
produced exactly the appended table with an empty staging table. -/
lemma merge_ok_inv {now : Nat} {db db' : DB}
    (h : insert_records_target now db = .ok db') :
    (newUrls db).Nodup ∧
      db' = { listings := db.listings ++ (newUrls db).map (mkRow now),
              listings_staging := [] } := by
  by_cases hn : (newUrls db).Nodup
  · simp only [insert_records_target, if_pos hn, RunResult.ok.injEq] at h
    exact ⟨hn, h.symm⟩
  · simp [insert_records_target, if_neg hn] at h

/-- After a completed merge, a URL is present in `LISTINGS` exactly when it
was present before or was staged. -/
lemma mem_listings_merge_ok {now : Nat} {db db' : DB}
    (h : insert_records_target now db = .ok db') (u : String) :
    (∃ r ∈ db'.listings, r.url = u) ↔
      (∃ r ∈ db.listings, r.url = u) ∨ u ∈ db.listings_staging := by
  obtain ⟨hn, rfl⟩ := merge_ok_inv h
  by_cases hold : ∃ r ∈ db.listings, r.url = u
  · obtain ⟨r, hr, hu⟩ := hold
    constructor
    · intro _
      exact Or.inl ⟨r, hr, hu⟩
    · intro _
      exact ⟨r, List.mem_append_left _ hr, hu⟩
  · simp only [List.mem_append, List.mem_map]
    constructor
    · rintro ⟨r, hr | ⟨v, hv, rfl⟩, hu⟩
      · exact absurd ⟨r, hr, hu⟩ hold
      · simp only [mkRow] at hu
        subst hu
        exact Or.inr (List.mem_of_mem_filter hv)
    · rintro (h' | hs)
      · exact absurd h' hold
      · refine ⟨mkRow now u, Or.inr ⟨u, ?_, rfl⟩, rfl⟩
        simp only [newUrls, List.mem_filter, hs, true_and, Bool.not_eq_true']
        rw [← Bool.not_eq_true, hasURL_eq_true_iff]
        exact hold

end FundaScraper

namespace FundaScraper

/-- C1: the claim as stated fails when the staged batch holds a duplicate
of a URL not yet persisted: with staging `["a", "a"]` and empty
`LISTINGS`, the merge's insert violates the primary key and the process
aborts, so nothing is inserted and the staging table is not cleared. -/
theorem C1_counterexample :
    insert_records_target 0 ⟨[], ["a", "a"]⟩ = .aborted ⟨[], ["a", "a"]⟩ ∧
    (insert_records_target 0 ⟨[], ["a", "a"]⟩).state.listings = [] ∧
    (insert_records_target 0 ⟨[], ["a", "a"]⟩).state.listings_staging ≠ [] := by
  refine ⟨?_, ?_, ?_⟩ <;> decide

/-- C1 (amended): when the staged URLs not already present are pairwise
distinct, the merge completes, clears the staging table, and inserts
exactly the staged URLs not already present as keys, each new row carrying
`FLAG = false` and both timestamps equal to the current time; pre-existing
rows are all preserved. -/
theorem C1_merge_set_difference (now : Nat) (db : DB)
    (h : (newUrls db).Nodup) :
    ∃ db', insert_records_target now db = .ok db' ∧
      db'.listings_staging = [] ∧
      (∀ u : String, (∃ r ∈ db'.listings, r.url = u) ↔
        (∃ r ∈ db.listings, r.url = u) ∨ u ∈ db.listings_staging) ∧
      (∀ r ∈ db.listings, r ∈ db'.listings) ∧
      (∀ r ∈ db'.listings, r ∉ db.listings →
        r.url ∈ db.listings_staging ∧ (¬∃ r₀ ∈ db.listings, r₀.url = r.url) ∧
        r.flag = false ∧ r.insert_timestamp = now ∧ r.update_timestamp = now) := by
  have hok : insert_records_target now db =
      .ok { listings := db.listings ++ (newUrls db).map (mkRow now),
            listings_staging := [] } := by
    simp [insert_records_target, if_pos h]
  refine ⟨_, hok, rfl, fun u => mem_listings_merge_ok hok u, ?_, ?_⟩
  · intro r hr
    exact List.mem_append_left _ hr
  · intro r hr hrold
    rcases List.mem_append.1 hr with h' | h'
    · exact absurd h' hrold
    · obtain ⟨u, hu, rfl⟩ := List.mem_map.1 h'
      obtain ⟨hus, hnot⟩ := List.mem_filter.1 hu
      refine ⟨hus, ?_, rfl, rfl, rfl⟩
      rw [← hasURL_eq_true_iff]
      simp only [Bool.not_eq_true'] at hnot
      simpa [mkRow] using hnot

/-- C1 (amended): when the staged URLs not already present are pairwise
distinct, the merge completes, clears the staging table, and inserts
exactly the staged URLs not already present as keys, each new row carrying
`FLAG = false` and both timestamps equal to the current time; pre-existing
rows are all preserved. -/
theorem C1_merge_set_difference_witness :
    (newUrls ⟨[Row.mk "a" true 0 0], ["a", "b"]⟩).Nodup ∧
    (∃ db', insert_records_target 5 ⟨[Row.mk "a" true 0 0], ["a", "b"]⟩ = .ok db' ∧
      db'.listings_staging = [] ∧
      (∀ u : String, (∃ r ∈ db'.listings, r.url = u) ↔
        (∃ r ∈ [Row.mk "a" true 0 0], r.url = u) ∨ u ∈ ["a", "b"]) ∧
      (∀ r ∈ [Row.mk "a" true 0 0], r ∈ db'.listings) ∧
      (∀ r ∈ db'.listings, r ∉ [Row.mk "a" true 0 0] →
        r.url ∈ ["a", "b"] ∧ (¬∃ r₀ ∈ [Row.mk "a" true 0 0], r₀.url = r.url) ∧
        r.flag = false ∧ r.insert_timestamp = 5 ∧ r.update_timestamp = 5)) :=
  ⟨by decide, C1_merge_set_difference 5 ⟨[Row.mk "a" true 0 0], ["a", "b"]⟩ (by decide)⟩

end FundaScraper

namespace FundaScraper

/-- C2: when the send succeeds, `mail_new_listings` completes and rewrites
the table row-for-row: every row that had `FLAG = false` gets `FLAG = true`
and `UPDATE_TIMESTAMP = now`, every row that already had `FLAG = true` is
unchanged, and URL and `INSERT_TIMESTAMP` are preserved throughout. -/
theorem C2_notify_marks_all (now : Nat) (db : DB) :
    ∃ db', mail_new_listings true now db = .ok db' ∧
      db'.listings_staging = db.listings_staging ∧
      List.Forall₂ (fun r r' =>
        r'.url = r.url ∧ r'.insert_timestamp = r.insert_timestamp ∧
        (r.flag = false → r'.flag = true ∧ r'.update_timestamp = now) ∧
        (r.flag = true → r' = r)) db.listings db'.listings := by
  refine ⟨_, rfl, rfl, ?_⟩
  rw [List.forall₂_map_right_iff, List.forall₂_same]
  intro r _
  by_cases hf : r.flag
  · simp [hf]
  · simp only [Bool.not_eq_true] at hf
    simp [hf]

/-- Witness for C2 at a concrete two-row database. -/
theorem C2_witness :
    ∃ db', mail_new_listings true 9 ⟨[Row.mk "a" false 1 1, Row.mk "b" true 0 0], []⟩ = .ok db' ∧
      db'.listings_staging = [] ∧
      List.Forall₂ (fun r r' =>
        r'.url = r.url ∧ r'.insert_timestamp = r.insert_timestamp ∧
        (r.flag = false → r'.flag = true ∧ r'.update_timestamp = 9) ∧
        (r.flag = true → r' = r))
        [Row.mk "a" false 1 1, Row.mk "b" true 0 0] db'.listings :=
  C2_notify_marks_all 9 ⟨[Row.mk "a" false 1 1, Row.mk "b" true 0 0], []⟩

/-- C3: merge is idempotent over the persisted key set: after a completed
merge of a staged batch, the table grew by exactly the number of genuinely
new URLs, and staging the same batch again and merging a second time
completes and inserts nothing. -/
theorem C3_merge_idempotent (now now2 : Nat) (db db1 : DB) (links : List String)
    (h : insert_records_target now (insert_records_staging db links) = .ok db1) :
    db1.listings.length =
      db.listings.length + (newUrls (insert_records_staging db links)).length ∧
    ∃ db2, insert_records_target now2 (insert_records_staging db1 links) = .ok db2 ∧
      db2.listings = db1.listings ∧ db2.listings_staging = [] := by
  obtain ⟨hn, heq⟩ := merge_ok_inv h
  have hlen : db1.listings.length =
      db.listings.length + (newUrls (insert_records_staging db links)).length := by
    rw [heq]
    simp [insert_records_staging]
  refine ⟨hlen, ?_⟩
  have hstag : db1.listings_staging = [] := by rw [heq]
  have hnil : newUrls (insert_records_staging db1 links) = [] := by
    unfold newUrls
    rw [List.filter_eq_nil_iff]
    intro a ha
    simp only [insert_records_staging, hstag, List.nil_append] at ha
    simp only [Bool.not_eq_true', Bool.not_eq_false]
    show hasURL db1.listings a = true
    rw [hasURL_eq_true_iff]
    exact (mem_listings_merge_ok h a).2
      (Or.inr (List.mem_append_right _ ha))
  have h2 : insert_records_target now2 (insert_records_staging db1 links) =
      .ok ⟨db1.listings, []⟩ := by
    unfold insert_records_target
    rw [hnil]
    simp [insert_records_staging]
  exact ⟨⟨db1.listings, []⟩, h2, rfl, rfl⟩

/-- Witness for C3: merging the batch `[a, b]` twice from an empty
database. -/
theorem C3_witness :
    insert_records_target 1 (insert_records_staging ⟨[], []⟩ ["a", "b"]) =
      .ok ⟨[mkRow 1 "a", mkRow 1 "b"], []⟩ ∧
    ((⟨[mkRow 1 "a", mkRow 1 "b"], []⟩ : DB).listings.length =
      ([] : List Row).length +
        (newUrls (insert_records_staging ⟨[], []⟩ ["a", "b"])).length ∧
    ∃ db2, insert_records_target 2
        (insert_records_staging ⟨[mkRow 1 "a", mkRow 1 "b"], []⟩ ["a", "b"]) = .ok db2 ∧
      db2.listings = [mkRow 1 "a", mkRow 1 "b"] ∧ db2.listings_staging = []) :=
  ⟨by decide,
    C3_merge_idempotent 1 2 ⟨[], []⟩ ⟨[mkRow 1 "a", mkRow 1 "b"], []⟩ ["a", "b"] (by decide)⟩

end FundaScraper

namespace FundaScraper

/-- C4 evaluated on the code: for every API key and target URL the GET
query parameters are named `api_key`, `url`, `country_code` and `desktop`
(line 29 of `main.py` uses the variable `device_type`, holding
`'desktop'`, as the dictionary key), so no parameter named `device_type`
is sent: the claim's parameter list does not match the code. -/
theorem C4_payload_key_is_desktop (api_key url : String) :
    payload_keys api_key url = ["api_key", "url", "country_code", "desktop"] ∧
    "device_type" ∉ payload_keys api_key url := by
  constructor
  · rfl
  · intro hmem
    simp [payload_keys, get_listings_payload] at hmem

/-- C5: when the send fails, the process aborts before the flag update and
the persisted database, flags included, is exactly the pre-call state. -/
theorem C5_failed_send_keeps_flags (now : Nat) (db : DB) :
    mail_new_listings false now db = .aborted db ∧
    (mail_new_listings false now db).state = db :=
  ⟨rfl, rfl⟩

/-- C6: each operation of a run (stage, merge in either outcome,
notify in either outcome; `get_new_listings` is a read-only query) keeps
every existing row's URL present and never turns a `true` flag back to
`false`. -/
theorem C6_no_delete_flag_monotone (db : DB) (links : List String) (now : Nat)
    (sendOk : Bool) (r : Row) (hr : r ∈ db.listings) :
    (∃ r' ∈ (insert_records_staging db links).listings,
      r'.url = r.url ∧ (r.flag = true → r'.flag = true)) ∧
    (∃ r' ∈ (insert_records_target now db).state.listings,
      r'.url = r.url ∧ (r.flag = true → r'.flag = true)) ∧
    (∃ r' ∈ (mail_new_listings sendOk now db).state.listings,
      r'.url = r.url ∧ (r.flag = true → r'.flag = true)) := by
  refine ⟨⟨r, hr, rfl, fun h => h⟩, ?_, ?_⟩
  · by_cases hn : (newUrls db).Nodup
    · refine ⟨r, ?_, rfl, fun h => h⟩
      simp only [insert_records_target, if_pos hn, RunResult.state]
      exact List.mem_append_left _ hr
    · refine ⟨r, ?_, rfl, fun h => h⟩
      simp only [insert_records_target, if_neg hn, RunResult.state]
      exact hr
  · cases sendOk
    · exact ⟨r, hr, rfl, fun h => h⟩
    · by_cases hf : r.flag
      · refine ⟨r, ?_, rfl, fun _ => hf⟩
        simp only [mail_new_listings, if_pos rfl, RunResult.state]
        refine List.mem_map.2 ⟨r, hr, ?_⟩
        simp [hf]
      · simp only [Bool.not_eq_true] at hf
        refine ⟨{ r with flag := true, update_timestamp := now }, ?_, rfl, fun _ => rfl⟩
        simp only [mail_new_listings, if_pos rfl, RunResult.state]
        refine List.mem_map.2 ⟨r, hr, ?_⟩
        simp [hf]

/-- Witness for C6 on a database holding one already-notified row. -/
theorem C6_witness :
    (∃ r' ∈ (insert_records_staging ⟨[Row.mk "a" true 0 0], []⟩ ["b"]).listings,
      r'.url = (Row.mk "a" true 0 0).url ∧
      ((Row.mk "a" true 0 0).flag = true → r'.flag = true)) ∧
    (∃ r' ∈ (insert_records_target 3 ⟨[Row.mk "a" true 0 0], []⟩).state.listings,
      r'.url = (Row.mk "a" true 0 0).url ∧
      ((Row.mk "a" true 0 0).flag = true → r'.flag = true)) ∧
    (∃ r' ∈ (mail_new_listings true 3 ⟨[Row.mk "a" true 0 0], []⟩).state.listings,
      r'.url = (Row.mk "a" true 0 0).url ∧
      ((Row.mk "a" true 0 0).flag = true → r'.flag = true)) :=
  C6_no_delete_flag_monotone ⟨[Row.mk "a" true 0 0], []⟩ ["b"] 3 true
    (Row.mk "a" true 0 0) (by decide)

/-- C7: when `get_new_listings` returns the empty list, `main` takes the
else-branch, `mail_new_listings` is not invoked, and the database is left
exactly as it was after the merge. -/
theorem C7_empty_query_noop (sendOk : Bool) (now : Nat) (db : DB)
    (h : get_new_listings db = []) :
    main_notify_step sendOk now db = .ok db := by
  simp [main_notify_step, h]

/-- Witness for C7 on a database whose only row is already flagged. -/
theorem C7_witness :
    get_new_listings ⟨[Row.mk "a" true 0 0], []⟩ = [] ∧
    main_notify_step false 4 ⟨[Row.mk "a" true 0 0], []⟩ =
      .ok ⟨[Row.mk "a" true 0 0], []⟩ :=
  ⟨by decide, C7_empty_query_noop false 4 ⟨[Row.mk "a" true 0 0], []⟩ (by decide)⟩

/-- C8: for a row whose URL also appears in the staged batch, the merge
leaves the rows keyed by that URL — flag and both timestamps included —
exactly as they were. -/
theorem C8_conflicting_rows_untouched (now : Nat) (db : DB) (r : Row)
    (hr : r ∈ db.listings) (hs : r.url ∈ db.listings_staging) :
    (insert_records_target now db).state.listings.filter (fun r' => r'.url == r.url) =
      db.listings.filter (fun r' => r'.url == r.url) := by
  by_cases hn : (newUrls db).Nodup
  · simp only [insert_records_target, if_pos hn, RunResult.state, List.filter_append]
    have hmap : ((newUrls db).map (mkRow now)).filter (fun r' => r'.url == r.url) = [] := by
      rw [List.filter_eq_nil_iff]
      intro a ha
      obtain ⟨u, hu, rfl⟩ := List.mem_map.1 ha
      obtain ⟨_, hnot⟩ := List.mem_filter.1 hu
      simp only [Bool.not_eq_true'] at hnot
      intro hbeq
      have hurl : u = r.url := by simpa [mkRow] using hbeq
      have : hasURL db.listings u = true := by
        rw [hasURL_eq_true_iff]
        exact ⟨r, hr, hurl.symm⟩
      rw [this] at hnot
      cases hnot
    rw [hmap, List.append_nil]
  · simp only [insert_records_target, if_neg hn, RunResult.state]

/-- Witness for C8: persisted `a` (already notified), staging `[a, c]`. -/
theorem C8_witness :
    Row.mk "a" true 0 0 ∈ ([Row.mk "a" true 0 0] : List Row) ∧
    (Row.mk "a" true 0 0).url ∈ ["a", "c"] ∧
    (insert_records_target 7 ⟨[Row.mk "a" true 0 0], ["a", "c"]⟩).state.listings.filter
        (fun r' => r'.url == (Row.mk "a" true 0 0).url) =
      ([Row.mk "a" true 0 0] : List Row).filter
        (fun r' => r'.url == (Row.mk "a" true 0 0).url) :=
  ⟨by decide, by decide,
    C8_conflicting_rows_untouched 7 ⟨[Row.mk "a" true 0 0], ["a", "c"]⟩
      (Row.mk "a" true 0 0) (by decide) (by decide)⟩

end FundaScraper

namespace FundaScraper

/-- C9: a URL staged twice and not yet persisted makes the materialised
insert violate the `URL` primary key, so the merge statement fails, the
process aborts, and nothing is inserted nor cleared. -/
theorem C9_duplicate_new_url_aborts (now : Nat) (db : DB) (u : String)
    (hnew : hasURL db.listings u = false)
    (hdup : 2 ≤ db.listings_staging.count u) :
    insert_records_target now db = .aborted db ∧
    (insert_records_target now db).state.listings = db.listings ∧
    (insert_records_target now db).state.listings_staging = db.listings_staging := by
  have hc : (newUrls db).count u = db.listings_staging.count u := by
    unfold newUrls
    apply List.count_filter
    simp [hnew]
  have hnd : ¬ (newUrls db).Nodup := by
    intro hnd
    have h1 := List.nodup_iff_count_le_one.1 hnd u
    rw [hc] at h1
    omega
  refine ⟨?_, ?_, ?_⟩ <;>
    simp only [insert_records_target, if_neg hnd, RunResult.state]

/-- Witness for C9: staging `[a, x, a]` against a table without `a`. -/
theorem C9_witness :
    hasURL ([Row.mk "b" false 0 0] : List Row) "a" = false ∧
    2 ≤ (["a", "x", "a"] : List String).count "a" ∧
    (insert_records_target 6 ⟨[Row.mk "b" false 0 0], ["a", "x", "a"]⟩ =
      .aborted ⟨[Row.mk "b" false 0 0], ["a", "x", "a"]⟩ ∧
    (insert_records_target 6 ⟨[Row.mk "b" false 0 0], ["a", "x", "a"]⟩).state.listings =
      [Row.mk "b" false 0 0] ∧
    (insert_records_target 6 ⟨[Row.mk "b" false 0 0], ["a", "x", "a"]⟩).state.listings_staging =
      ["a", "x", "a"]) :=
  ⟨by decide, by decide,
    C9_duplicate_new_url_aborts 6 ⟨[Row.mk "b" false 0 0], ["a", "x", "a"]⟩ "a"
      (by decide) (by decide)⟩

/-- C10: staging is append-only and neither `connect_to_sql` nor the start
of a run clears it, so URLs left behind by an aborted prior run survive
into the next run's staging table and are merged together with the newly
staged links. -/
theorem C10_leftover_staging_merged (db : DB) (links : List String) (u : String)
    (now : Nat) (hu : u ∈ db.listings_staging) :
    (insert_records_staging (connect_to_sql (some db)) links).listings_staging =
      db.listings_staging ++ links ∧
    u ∈ (insert_records_staging (connect_to_sql (some db)) links).listings_staging ∧
    ∀ db2, insert_records_target now
        (insert_records_staging (connect_to_sql (some db)) links) = .ok db2 →
      ∃ r ∈ db2.listings, r.url = u := by
  refine ⟨rfl, List.mem_append_left _ hu, ?_⟩
  intro db2 h2
  exact (mem_listings_merge_ok h2 u).2 (Or.inr (List.mem_append_left _ hu))

/-- Witness for C10: a leftover staged URL merged on the next run. -/
theorem C10_witness :
    "left" ∈ (["left"] : List String) ∧
    ((insert_records_staging (connect_to_sql (some ⟨[], ["left"]⟩)) ["new"]).listings_staging =
      ["left"] ++ ["new"] ∧
    "left" ∈ (insert_records_staging (connect_to_sql (some ⟨[], ["left"]⟩)) ["new"]).listings_staging ∧
    ∀ db2, insert_records_target 1
        (insert_records_staging (connect_to_sql (some ⟨[], ["left"]⟩)) ["new"]) = .ok db2 →
      ∃ r ∈ db2.listings, r.url = "left") :=
  ⟨by decide,
    C10_leftover_staging_merged ⟨[], ["left"]⟩ ["new"] "left" 1 (by decide)⟩

end FundaScraper
